import Mathlib

/-!
Shallow embedding of src/aegis/visualizations.py (class AegisVisualizer):
the results loader, the color tables, the seven static chart routines and
the client-side components embedded in the generated dashboard document.

Modelling conventions:
- numeric JSON/CSV values are rationals (CSV cells are modelled already
  parsed; a missing column or dict key is Option.none);
- a dict field read with plain indexing in Python (which can raise
  KeyError) is an Option-valued field forced through keyGet, while fields
  only ever read through dict.get(key, default) go through Option.getD;
- fallible routines return Except PyError, mirroring which Python
  exceptions can escape each routine; matplotlib drawing primitives
  themselves never raise on the typed data modelled here, so a routine is
  .ok exactly when its Python body runs to savefig.
-/

namespace Aegis

/-- Python exceptions that the visualization code can raise. -/
inductive PyError where
  | fileNotFound (msg : String)
  | keyError (key : String)
  | indexError
  | valueError (msg : String)
  deriving DecidableEq

/-- One row of squad_fit_scores.csv as produced by csv.DictReader.
Fields are Option-valued: none models a missing column. -/
structure CsvRow where
  name? : Option String
  position? : Option String
  age? : Option ℚ
  fitScore? : Option ℚ
  classification? : Option String
  deriving DecidableEq

/-- One entry of results["ideal_xi"] (a JSON object; keys may be absent). -/
structure PosAssign where
  position? : Option String
  name? : Option String
  fitScore? : Option ℚ
  deriving DecidableEq

/-- One entry of results["recruitment"] (a JSON object; keys may be absent). -/
structure RecNeed where
  position? : Option String
  gap? : Option ℚ
  urgency? : Option String
  timeline? : Option String
  costLow? : Option ℚ
  costHigh? : Option ℚ
  deriving DecidableEq

/-- results["squad_summary"]: aggregate counts, every key optional
(the code reads each through .get(key, 0)). -/
structure SquadSummary where
  keyEnablers? : Option ℚ
  goodFit? : Option ℚ
  systemDependent? : Option ℚ
  marginalised? : Option ℚ
  total? : Option ℚ
  averageFit? : Option ℚ
  deriving DecidableEq

def emptySummary : SquadSummary := ⟨none, none, none, none, none, none⟩

/-- The loaded aegis_analysis.json document. Every top-level key is
optional (the code reads each via .get with a default). extraKeys models
top-level keys outside the known schema: no routine reads them, but they
make the Python dict truthy, which generate_dashboard tests. -/
structure Results where
  manager? : Option String
  primaryFormation? : Option String
  matchesAnalysed? : Option ℚ
  dnaDimensions? : Option (List (String × ℚ))
  squadSummary? : Option SquadSummary
  idealXi? : Option (List PosAssign)
  recruitment? : Option (List RecNeed)
  extraKeys : List String
  deriving DecidableEq

/-- Python truthiness of the results dict: nonempty iff it has some key. -/
def Results.isTruthy (r : Results) : Bool :=
  r.manager?.isSome || r.primaryFormation?.isSome || r.matchesAnalysed?.isSome ||
  r.dnaDimensions?.isSome || r.squadSummary?.isSome || r.idealXi?.isSome ||
  r.recruitment?.isSome || !r.extraKeys.isEmpty

/-- The filesystem state seen by the visualizer: presence and content of
the primary JSON document and of the secondary squad-fit CSV. -/
structure FS where
  primaryExists : Bool
  primaryDoc : Results
  csvExists : Bool
  csvRows : List CsvRow
  deriving DecidableEq

/-- The mutable attributes of AegisVisualizer relevant to loading:
self.results and self.squad_fit_data (both initialised to None). -/
structure VizState where
  results : Option Results
  squadFitData : Option (List CsvRow)
  deriving DecidableEq

def initState : VizState := ⟨none, none⟩

/-- load_results: raises FileNotFoundError when aegis_analysis.json is
absent (checked first; fatal). Reads squad_fit_scores.csv only when that
file exists; otherwise self.squad_fit_data is left unchanged (None after
init). The returned string list is the warnings logged: load_results logs
none (its only output is a success info line). -/
def loadResults (fs : FS) (st : VizState) : Except PyError (VizState × List String) :=
  if fs.primaryExists then
    let st1 : VizState := ⟨some fs.primaryDoc, st.squadFitData⟩
    let st2 : VizState := if fs.csvExists then ⟨st1.results, some fs.csvRows⟩ else st1
    .ok (st2, [])
  else
    .error (.fileNotFound "Results not found")

/-- AegisVisualizer.COLORS. -/
def COLORS : List (String × String) :=
  [("Key Enabler", "#22c55e"), ("Good Fit", "#eab308"),
   ("System Dependent", "#f97316"), ("Potentially Marginalised", "#ef4444"),
   ("primary", "#3b82f6"), ("secondary", "#64748b")]

/-- Python dict.get(key, default) on a string-to-string table. -/
def dictGet (d : List (String × String)) (k dflt : String) : String :=
  match d.find? (fun kv => kv.1 == k) with
  | some kv => kv.2
  | none => dflt

/-- self.COLORS["secondary"] (key present, plain indexing cannot raise). -/
def secondaryColor : String := dictGet COLORS "secondary" ""

/-- self.COLORS.get(c, self.COLORS["secondary"]) as used in plot_squad_fit. -/
def classificationColor (c : String) : String := dictGet COLORS c secondaryColor

/-- The urgency color table local to plot_recruitment. -/
def urgencyTable : List (String × String) :=
  [("Critical", "#ef4444"), ("High", "#f97316"), ("Medium", "#eab308")]

/-- colors.get(u, "#64748b") as used in plot_recruitment. -/
def urgencyColor (u : String) : String := dictGet urgencyTable u "#64748b"

/-- One radar vertex: polar angle in degrees and radial distance as a
fraction of the chart radius R. -/
structure Vertex where
  angleDeg : ℚ
  radiusFrac : ℚ
  deriving DecidableEq

/-- plot_dna_radar vertex geometry: angles from
np.linspace(0, 2*pi, n, endpoint=False), i.e. vertex i at 2*pi*i/n
(no offset; matplotlib polar default orientation), values plotted on the
radial axis with ylim(0, 100), i.e. r/R = value/100. -/
def staticRadarVertices (dims : List (String × ℚ)) : List Vertex :=
  dims.enum.map fun p => ⟨360 * (p.1 : ℚ) / (dims.length : ℚ), p.2.2 / 100⟩

/-- DNARadar (dashboard) vertex geometry: angleStep = 2*pi/count,
angle = i*angleStep - pi/2, r = (value/100)*radius. In degrees:
i*(360/n) - 90. (For count = 0 the JS angleStep is Infinity, but the
map over the empty dimension list computes no point.) -/
def dashRadarVertices (dims : List (String × ℚ)) : List Vertex :=
  dims.enum.map fun p => ⟨(p.1 : ℚ) * (360 / (dims.length : ℚ)) - 90, p.2.2 / 100⟩

/-- Modelled from the spec: vertex i at angle i*(360/n) - 90 degrees with
radial distance (value/100)*R. Used to compare both rendering targets
against the specified formula. -/
def specRadarVertices (dims : List (String × ℚ)) : List Vertex :=
  dims.enum.map fun p => ⟨(p.1 : ℚ) * (360 / (dims.length : ℚ)) - 90, p.2.2 / 100⟩

/-- The static radar chart: its vertices and the closed polygon
(values += values[:1] closes the loop by repeating the first vertex). -/
structure RadarChart where
  vertices : List Vertex
  polygon : List Vertex
  deriving DecidableEq

def staticRadar (dims : List (String × ℚ)) : RadarChart :=
  let vs := staticRadarVertices dims
  ⟨vs, vs ++ vs.take 1⟩

/-- plot_dna_radar: reads dna_dimensions with .get default {}; on the
typed data modelled here the matplotlib calls cannot raise. -/
def plotDnaRadar (r : Results) : Except PyError RadarChart :=
  .ok (staticRadar (r.dnaDimensions?.getD []))

/-- Labels of plot_classification_pie, in source order. -/
def pieLabels : List String :=
  ["Key Enabler", "Good Fit", "System Dependent", "Potentially Marginalised"]

/-- sizes: the four squad_summary counts, each read with .get(key, 0). -/
def pieSizes (s : SquadSummary) : List ℚ :=
  [s.keyEnablers?.getD 0, s.goodFit?.getD 0,
   s.systemDependent?.getD 0, s.marginalised?.getD 0]

/-- colors = [self.COLORS[l] for l in labels] (all four keys present). -/
def pieColors : List String := pieLabels.map fun l => dictGet COLORS l ""

/-- data = [(l, s, c) for l, s, c in zip(labels, sizes, colors) if s > 0]. -/
def pieData (s : SquadSummary) : List (String × ℚ × String) :=
  (pieLabels.zip ((pieSizes s).zip pieColors)).filter fun t => 0 < t.2.1

/-- Sum of the wedge sizes actually passed to ax.pie. -/
def pieTotal (s : SquadSummary) : ℚ := ((pieData s).map fun t => t.2.1).sum

/-- The percentage matplotlib autopct computes for each wedge:
size / total * 100. -/
def pieWedgePcts (s : SquadSummary) : List ℚ :=
  (pieData s).map fun t => t.2.1 / pieTotal s * 100

/-- The count plot_classification_pie uses for a given label. -/
def labelCount (s : SquadSummary) (l : String) : ℚ :=
  if l = "Key Enabler" then s.keyEnablers?.getD 0
  else if l = "Good Fit" then s.goodFit?.getD 0
  else if l = "System Dependent" then s.systemDependent?.getD 0
  else s.marginalised?.getD 0

/-- The 4-3-3 coordinate table of plot_ideal_xi. -/
def positionsStatic : List (String × ℚ × ℚ) :=
  [("GK", 50, 92), ("LB", 15, 70), ("CB1", 35, 75), ("CB2", 65, 75),
   ("RB", 85, 70), ("DM", 50, 55), ("CM", 30, 45), ("AM", 70, 45),
   ("LW", 15, 25), ("CF", 50, 15), ("RW", 85, 25)]

/-- The coordinate table of the dashboard IdealXIPitch component.
Note its GK entry is (50, 90), not the static table value (50, 92). -/
def positionsDash : List (String × ℚ × ℚ) :=
  [("GK", 50, 90), ("LB", 15, 70), ("CB1", 35, 75), ("CB2", 65, 75),
   ("RB", 85, 70), ("DM", 50, 55), ("CM", 30, 45), ("AM", 70, 45),
   ("LW", 15, 25), ("CF", 50, 15), ("RW", 85, 25)]

def posLookup (tbl : List (String × ℚ × ℚ)) (k : String) : Option (ℚ × ℚ) :=
  (tbl.find? fun kv => kv.1 == k).map fun kv => kv.2

/-- Splitting a character list at every occurrence of sep, keeping empty
chunks (the behavior of str.split(sep) for a one-character separator). -/
def splitChars (sep : Char) : List Char → List (List Char)
  | [] => [[]]
  | c :: cs =>
    let r := splitChars sep cs
    if c = sep then [] :: r
    else
      match r with
      | [] => [[c]]
      | t :: ts => (c :: t) :: ts

/-- JS name.split(' '): chunks between spaces, empty chunks kept. -/
def jsSplit (s : String) : List String :=
  (splitChars ' ' s.toList).map fun cs => String.mk cs

/-- Python str.split() with no argument: split on whitespace runs,
discarding empty tokens (modelled for space-separated names). -/
def pySplitWs (s : String) : List String :=
  (jsSplit s).filter fun t => t ≠ ""

/-- name.split()[-1]: none models the IndexError raised on a name with no
token (e.g. the empty string). -/
def lastToken? (s : String) : Option String := (pySplitWs s).getLast?

/-- plot_ideal_xi marker color, tiered by fit score. -/
def tierColor (score : ℚ) : String :=
  if 75 ≤ score then dictGet COLORS "Key Enabler" ""
  else if 60 ≤ score then dictGet COLORS "Good Fit" ""
  else dictGet COLORS "System Dependent" ""

/-- One drawn pitch marker. -/
structure Marker where
  x : ℚ
  y : ℚ
  score : ℚ
  color : String
  surname : String
  deriving DecidableEq

/-- The player loop of plot_ideal_xi: skip assignments whose position key
(read with .get("position", "")) is not in the table; for the rest draw a
marker at the mapped coordinate, tier-colored, labelled with the rounded
score and the last whitespace token of name (IndexError on a tokenless
name, which aborts the whole chart before savefig). -/
def drawXi : List PosAssign → Except PyError (List Marker)
  | [] => .ok []
  | p :: rest =>
    match posLookup positionsStatic (p.position?.getD "") with
    | none => drawXi rest
    | some xy =>
      let score := p.fitScore?.getD 0
      match lastToken? (p.name?.getD "") with
      | none => .error .indexError
      | some nm =>
        match drawXi rest with
        | .error e => .error e
        | .ok ms => .ok (⟨xy.1, xy.2, score, tierColor score, nm⟩ :: ms)

/-- The marker plot_ideal_xi draws for a known-position assignment
(the getD defaults are never reached for such an assignment). -/
def staticMark (p : PosAssign) : Marker :=
  let xy := (posLookup positionsStatic (p.position?.getD "")).getD (0, 0)
  let score := p.fitScore?.getD 0
  ⟨xy.1, xy.2, score, tierColor score, (lastToken? (p.name?.getD "")).getD ""⟩

/-- IdealXIPitch marker color classes (score >= 75 / >= 60 / below). -/
def dashTierColor (score : ℚ) : String :=
  if 75 ≤ score then "bg-green-500"
  else if 60 ≤ score then "bg-yellow-500"
  else "bg-orange-500"

/-- player.name?.split(' ').pop() || 'Unknown': undefined name, or an
empty last chunk (JS split(' ') keeps empty chunks), falls back to
'Unknown'; no exception. -/
def jsLastName (n? : Option String) : String :=
  match n? with
  | none => "Unknown"
  | some s =>
    match (jsSplit s).getLast? with
    | none => "Unknown"
    | some t => if t = "" then "Unknown" else t

/-- The marker IdealXIPitch renders for a known-position assignment. -/
def dashMark (p : PosAssign) : Marker :=
  let xy := (posLookup positionsDash (p.position?.getD "")).getD (0, 0)
  let score := p.fitScore?.getD 0
  ⟨xy.1, xy.2, score, dashTierColor score, jsLastName p.name?⟩

/-- IdealXIPitch player loop: positions[player.position] undefined means
the entry renders null (skipped); known positions render a marker. -/
def dashXiMarkers (xi : List PosAssign) : List Marker :=
  xi.filterMap fun p =>
    match posLookup positionsDash (p.position?.getD "") with
    | none => none
    | some _ => some (dashMark p)

/-- Sort key of plot_squad_fit: float(x.get("Fit Score", 0)). -/
def rowKey (p : CsvRow) : ℚ := p.fitScore?.getD 0

/-- a may precede b in the descending order (ties allowed either way). -/
def rowLe (a b : CsvRow) : Bool := decide (rowKey b ≤ rowKey a)

/-- players.sort(key=lambda x: float(x.get("Fit Score", 0)), reverse=True):
CPython list.sort is stable, and stable descending sort by key is exactly
stable merge sort under rowLe. -/
def sortRowsDesc (players : List CsvRow) : List CsvRow := players.mergeSort rowLe

/-- A squad-fit row reshaped for embedding in the dashboard. -/
structure DashPlayer where
  name : String
  position : String
  age : ℚ
  score : ℚ
  classification : String
  deriving DecidableEq

def dashLe (a b : DashPlayer) : Bool := decide (b.score ≤ a.score)

/-- [...squadFit].sort((a, b) => b.score - a.score): ES2019 Array sort is
stable, so this too is stable merge sort under dashLe. -/
def dashSortDesc (l : List DashPlayer) : List DashPlayer := l.mergeSort dashLe

/-- SquadFitChart rows: stable descending sort then slice(0, 15). -/
def squadFitChartRows (l : List DashPlayer) : List DashPlayer :=
  (dashSortDesc l).take 15

/-- generate_dashboard squad-fit reshaping, guarded by the truthiness of
self.squad_fit_data (None and the empty list both skip the loop). -/
def dashSquadFit (sfd : Option (List CsvRow)) : List DashPlayer :=
  match sfd with
  | none => []
  | some rows =>
    if rows.isEmpty then []
    else rows.map fun p =>
      ⟨p.name?.getD "Unknown", p.position?.getD "Unknown", p.age?.getD 25,
       p.fitScore?.getD 0, p.classification?.getD "Unknown"⟩

/-- JS (v || 0) on an embedded numeric field: undefined and 0 are falsy. -/
def jsOr0 (x : Option ℚ) : ℚ :=
  match x with
  | none => 0
  | some v => if v = 0 then 0 else v

/-- Dashboard totalInvestLow: recruitment.reduce((a, b) => a + (b.cost_low || 0), 0). -/
def dashTotalLow (recs : List RecNeed) : ℚ :=
  recs.foldl (fun a b => a + jsOr0 b.costLow?) 0

/-- Dashboard totalInvestHigh: recruitment.reduce((a, b) => a + (b.cost_high || 0), 0). -/
def dashTotalHigh (recs : List RecNeed) : ℚ :=
  recs.foldl (fun a b => a + jsOr0 b.costHigh?) 0

/-- Executive summary total_low = sum(r.get("cost_low", 0) for r in recruitment). -/
def execTotalLow (recs : List RecNeed) : ℚ :=
  (recs.map fun r => r.costLow?.getD 0).sum

/-- Executive summary total_high = sum(r.get("cost_high", 0) for r in recruitment). -/
def execTotalHigh (recs : List RecNeed) : ℚ :=
  (recs.map fun r => r.costHigh?.getD 0).sum

/-- The seven static charts, in the order plot_all invokes them. -/
inductive ChartId where
  | dnaRadar
  | formationUsage
  | squadFit
  | classificationPie
  | idealXi
  | recruitment
  | executiveSummary
  deriving DecidableEq

inductive ChartStatus where
  | saved
  | skipped
  deriving DecidableEq

/-- Python dict[key] on an Option-modelled field: KeyError when absent. -/
def keyGet {β : Type} (v : Option β) (k : String) : Except PyError β :=
  match v with
  | some b => .ok b
  | none => .error (.keyError k)

/-- A Python list comprehension over l applying a fallible body: stops at
the first raised exception. -/
def pyComp {α β : Type} : List α → (α → Except PyError β) → Except PyError (List β)
  | [], _ => .ok []
  | x :: xs, f =>
    match f x with
    | .error e => .error e
    | .ok b =>
      match pyComp xs f with
      | .error e => .error e
      | .ok bs => .ok (b :: bs)

/-- plot_dna_radar as a batch routine (cannot raise on typed data). -/
def plotDnaRadarC (r : Results) : Except PyError ChartStatus :=
  match plotDnaRadar r with
  | .error e => .error e
  | .ok _ => .ok .saved

/-- plot_formation_usage draws hardcoded placeholder data only. -/
def plotFormationUsageC (_ : Results) : Except PyError ChartStatus := .ok .saved

/-- plot_squad_fit: re-reads the CSV itself (empty list when the file is
absent); returns early when there are no rows; then sorts and builds the
name/score/classification columns with plain indexing (KeyError on a
missing column). Colors use .get with the secondary fallback. -/
def plotSquadFitC (fs : FS) : Except PyError ChartStatus :=
  let players := if fs.csvExists then fs.csvRows else []
  if players.isEmpty then .ok .skipped
  else
    let sorted := sortRowsDesc players
    match pyComp sorted (fun p => keyGet p.name? "Name") with
    | .error e => .error e
    | .ok _ =>
      match pyComp sorted (fun p => keyGet p.fitScore? "Fit Score") with
      | .error e => .error e
      | .ok _ =>
        match pyComp sorted (fun p => keyGet p.classification? "Classification") with
        | .error e => .error e
        | .ok _ => .ok .saved

/-- plot_classification_pie: returns without drawing when every count is
zero or below; otherwise draws the filtered wedges. -/
def plotClassificationPieC (r : Results) : Except PyError ChartStatus :=
  let data := pieData (r.squadSummary?.getD emptySummary)
  if data.isEmpty then .ok .skipped else .ok .saved

/-- plot_ideal_xi as a batch routine. -/
def plotIdealXiC (r : Results) : Except PyError ChartStatus :=
  match drawXi (r.idealXi?.getD []) with
  | .error e => .error e
  | .ok _ => .ok .saved

/-- plot_recruitment: returns early on an empty list; otherwise builds the
position/gap/urgency columns and the cost annotations with plain indexing
(KeyError on a missing key). Urgency colors use .get with slate fallback. -/
def plotRecruitmentC (r : Results) : Except PyError ChartStatus :=
  let recs := r.recruitment?.getD []
  if recs.isEmpty then .ok .skipped
  else
    match pyComp recs (fun x => keyGet x.position? "position") with
    | .error e => .error e
    | .ok _ =>
      match pyComp recs (fun x => keyGet x.gap? "gap") with
      | .error e => .error e
      | .ok _ =>
        match pyComp recs (fun x => keyGet x.urgency? "urgency") with
        | .error e => .error e
        | .ok _ =>
          match pyComp recs (fun x =>
              match keyGet x.costLow? "cost_low" with
              | .error e => .error e
              | .ok lo =>
                match keyGet x.costHigh? "cost_high" with
                | .error e => .error e
                | .ok hi => .ok (lo, hi)) with
          | .error e => .error e
          | .ok _ => .ok .saved

/-- p["name"].split()[-1] in plot_executive_summary: KeyError on a missing
name, IndexError on a tokenless one. -/
def execSurname (p : PosAssign) : Except PyError String :=
  match p.name? with
  | none => .error (.keyError "name")
  | some n =>
    match lastToken? n with
    | none => .error .indexError
    | some t => .ok t

/-- plot_executive_summary: panels over dna/pie/metrics never raise; the
top-5 panel (guarded by `if ideal:`) indexes name and fit_score directly;
the recruitment panel (guarded by `if recruitment:`) indexes position and
gap; the investment panel uses .get throughout. -/
def plotExecutiveSummaryC (r : Results) : Except PyError ChartStatus :=
  let ideal := (r.idealXi?.getD []).take 5
  let recs4 := (r.recruitment?.getD []).take 4
  match (if ideal.isEmpty then .ok [] else pyComp ideal execSurname) with
  | .error e => .error e
  | .ok _ =>
    match (if ideal.isEmpty then .ok [] else
        pyComp ideal (fun p => keyGet p.fitScore? "fit_score")) with
    | .error e => .error e
    | .ok _ =>
      match (if recs4.isEmpty then .ok [] else
          pyComp recs4 (fun x => keyGet x.position? "position")) with
      | .error e => .error e
      | .ok _ =>
        match (if recs4.isEmpty then .ok [] else
            pyComp recs4 (fun x => keyGet x.gap? "gap")) with
        | .error e => .error e
        | .ok _ => .ok .saved

/-- The seven routines with their outcomes, in plot_all order. -/
def chartRoutines (r : Results) (fs : FS) : List (ChartId × Except PyError ChartStatus) :=
  [(.dnaRadar, plotDnaRadarC r),
   (.formationUsage, plotFormationUsageC r),
   (.squadFit, plotSquadFitC fs),
   (.classificationPie, plotClassificationPieC r),
   (.idealXi, plotIdealXiC r),
   (.recruitment, plotRecruitmentC r),
   (.executiveSummary, plotExecutiveSummaryC r)]

/-- Sequential execution with Python exception propagation: each routine
is attempted in turn; an uncaught exception ends the batch (plot_all has
no try/except). Returns the attempted charts and the escaped exception. -/
def runCharts : List (ChartId × Except PyError ChartStatus) → List ChartId × Option PyError
  | [] => ([], none)
  | (c, res) :: rest =>
    match res with
    | .error e => ([c], some e)
    | .ok _ =>
      let t := runCharts rest
      (c :: t.1, t.2)

/-- plot_all after a successful load. -/
def plotAll (r : Results) (fs : FS) : List ChartId × Option PyError :=
  runCharts (chartRoutines r fs)

def chartOrder : List ChartId :=
  [.dnaRadar, .formationUsage, .squadFit, .classificationPie,
   .idealXi, .recruitment, .executiveSummary]

/-- The data generate_dashboard embeds into the document it writes. -/
structure DashboardDoc where
  manager : String
  primaryFormation : String
  matchesAnalysed : ℚ
  dnaDimensions : List (String × ℚ)
  squadSummary : SquadSummary
  squadFit : List DashPlayer
  idealXi : List PosAssign
  recruitment : List RecNeed
  deriving DecidableEq

/-- Python truthiness of self.results (None or an empty dict are falsy). -/
def pyTruthyR : Option Results → Bool
  | none => false
  | some r => r.isTruthy

/-- generate_dashboard: `if not self.results: raise ValueError(...)`;
otherwise builds the embedded data, writes the document to
output_dir/filename and returns that path (modelled by the filename). -/
def generateDashboard (st : VizState) (filename : String) :
    Except PyError (String × DashboardDoc) :=
  if pyTruthyR st.results then
    let r := (st.results).getD ⟨none, none, none, none, none, none, none, []⟩
    .ok (filename,
      ⟨r.manager?.getD "Unknown", r.primaryFormation?.getD "4-3-3",
       r.matchesAnalysed?.getD 0, r.dnaDimensions?.getD [],
       r.squadSummary?.getD emptySummary, dashSquadFit st.squadFitData,
       r.idealXi?.getD [], r.recruitment?.getD []⟩)
  else
    .error (.valueError "No results loaded. Call load_results() first.")

/-! Concrete fixtures used by witnesses and counterexamples. -/

def emptyResults : Results := ⟨none, none, none, none, none, none, none, []⟩

def sampleSummary : SquadSummary := ⟨some 5, some 8, some 4, some 3, some 20, some 71⟩

def sampleResults : Results :=
  ⟨some "Iraola", some "4-3-3", some 38, some [("Pressing", 90)],
   some sampleSummary, some [], some [], []⟩

/-- A CSV row without a Fit Score column. -/
def rowNoScore : CsvRow := ⟨some "Smith", some "CM", some 24, none, some "Good Fit"⟩

def fsNoScore : FS := ⟨true, sampleResults, true, [rowNoScore]⟩

def fsCsvMissing : FS := ⟨true, sampleResults, false, []⟩

def dimsA : List (String × ℚ) := [("A", 100)]

/-- A known-position assignment whose name has no whitespace token. -/
def badXi : List PosAssign := [⟨some "GK", some "", some 80⟩]

/-- A known-position and an unknown-position assignment. -/
def xiMixed : List PosAssign :=
  [⟨some "GK", some "Alisson Becker", some 80⟩, ⟨some "ST", some "John Doe", some 70⟩]

/-- The spec example: recruitment = [{cost_low:10,cost_high:20},{cost_low:5,cost_high:8}]. -/
def exampleRecs : List RecNeed :=
  [⟨none, none, none, none, some 10, some 20⟩,
   ⟨none, none, none, none, some 5, some 8⟩]

/-- Two CSV rows with equal fit scores. -/
def rowA : CsvRow := ⟨some "Alpha", some "GK", some 30, some 70, some "Good Fit"⟩

def rowB : CsvRow := ⟨some "Beta", some "CB", some 28, some 70, some "Good Fit"⟩

/-- Two dashboard rows with equal scores. -/
def playerA : DashPlayer := ⟨"Alpha", "GK", 30, 70, "Good Fit"⟩

def playerB : DashPlayer := ⟨"Beta", "CB", 28, 70, "Good Fit"⟩

/-! Theorems. -/

/-- C1 (counterexample): on the single dimension {"A": 100} the static
radar places its vertex at polar angle 0, not at the specified
i*(360/n) - 90 = -90 where the dashboard places it, so the two rendering
targets do not compute identical vertex geometry. -/
theorem radar_targets_disagree :
    staticRadarVertices dimsA ≠ specRadarVertices dimsA ∧
    dashRadarVertices dimsA = specRadarVertices dimsA := by
  refine ⟨?_, rfl⟩
  have hs : staticRadarVertices dimsA = [⟨0, 1⟩] := by
    simp only [staticRadarVertices, dimsA, List.enum]
    norm_num [List.enumFrom]
  have hp : specRadarVertices dimsA = [⟨-90, 1⟩] := by
    simp only [specRadarVertices, dimsA, List.enum]
    norm_num [List.enumFrom]
  rw [hs, hp]
  simp only [ne_eq, List.cons.injEq, Vertex.mk.injEq, and_true]
  norm_num

/-- C1 (amended): the dashboard radar places vertex i exactly at the
specified angle i*(360/n) - 90 degrees with radius (value/100)*R, while
the static radar uses the same spacing and radius but no -90 offset: its
vertex geometry is the specified one rotated by a constant +90 degrees. -/
theorem radar_geometry_amended (dims : List (String × ℚ)) :
    dashRadarVertices dims = specRadarVertices dims ∧
    staticRadarVertices dims =
      (specRadarVertices dims).map fun v => ⟨v.angleDeg + 90, v.radiusFrac⟩ := by
  refine ⟨rfl, ?_⟩
  simp only [staticRadarVertices, specRadarVertices, List.map_map]
  refine List.map_congr_left fun p _ => ?_
  simp only [Function.comp_apply]
  congr 1
  ring

/-- C3 (counterexample): with the primary JSON present and the CSV absent,
load_results succeeds but the secondary collection is left unset (None),
not the empty list, and the warning log is empty. -/
theorem load_results_csv_absent_cx :
    ((loadResults fsCsvMissing initState).toOption.map fun p => p.1.squadFitData) =
      some none ∧
    some (none : Option (List CsvRow)) ≠ some (some ([] : List CsvRow)) ∧
    ((loadResults fsCsvMissing initState).toOption.map fun p => p.2) = some [] :=
  ⟨rfl, by decide, rfl⟩

/-- C3 (amended): load_results raises FileNotFoundError when the primary
JSON document is absent (fatal, before any rendering); when only the
squad-fit CSV is absent it succeeds, leaving squad_fit_data unset (None,
not an empty list) and logging no warning; when both are present it
succeeds with the CSV rows loaded. -/
theorem load_results_amended (fs : FS) :
    (fs.primaryExists = false →
      loadResults fs initState = .error (.fileNotFound "Results not found")) ∧
    (fs.primaryExists = true → fs.csvExists = false →
      loadResults fs initState = .ok (⟨some fs.primaryDoc, none⟩, [])) ∧
    (fs.primaryExists = true → fs.csvExists = true →
      loadResults fs initState = .ok (⟨some fs.primaryDoc, some fs.csvRows⟩, [])) := by
  refine ⟨fun h => ?_, fun h1 h2 => ?_, fun h1 h2 => ?_⟩ <;>
    simp_all [loadResults, initState]

/-- Witness for C3's theorem at concrete filesystem states. -/
theorem load_results_amended_w :
    loadResults ⟨false, emptyResults, false, []⟩ initState =
      .error (.fileNotFound "Results not found") ∧
    loadResults ⟨true, emptyResults, false, []⟩ initState =
      .ok (⟨some emptyResults, none⟩, []) :=
  ⟨(load_results_amended _).1 rfl, (load_results_amended _).2.1 rfl rfl⟩

/-- C6: every label outside the classification color table maps to the
neutral slate fallback, and every label outside the urgency table maps to
the same slate fallback; both lookups are total (get-with-default). -/
theorem color_fallback (l u : String)
    (hl : l ∉ COLORS.map fun kv => kv.1)
    (hu : u ∉ urgencyTable.map fun kv => kv.1) :
    classificationColor l = "#64748b" ∧ urgencyColor u = "#64748b" := by
  constructor
  · have hf : COLORS.find? (fun kv => kv.1 == l) = none := by
      rw [List.find?_eq_none]
      intro x hx hbe
      exact hl (List.mem_map.mpr ⟨x, hx, by simpa using hbe⟩)
    simp only [classificationColor, dictGet, hf]
    rfl
  · have hf : urgencyTable.find? (fun kv => kv.1 == u) = none := by
      rw [List.find?_eq_none]
      intro x hx hbe
      exact hu (List.mem_map.mpr ⟨x, hx, by simpa using hbe⟩)
    simp only [urgencyColor, dictGet, hf]

/-- Witness for C6's theorem at concrete unknown labels. -/
theorem color_fallback_w :
    classificationColor "Wizard" = "#64748b" ∧ urgencyColor "Low" = "#64748b" :=
  color_fallback "Wizard" "Low" (by decide) (by decide)

/-- Folding addition of a projection equals the sum of the mapped list. -/
theorem foldl_add_map (f : RecNeed → ℚ) (recs : List RecNeed) (a : ℚ) :
    recs.foldl (fun x b => x + f b) a = a + (recs.map f).sum := by
  induction recs generalizing a with
  | nil => simp
  | cons r rs ih => simp [ih]; ring

/-- JS (v || 0) coincides with get-with-default-0 on numeric fields. -/
theorem jsOr0_eq_getD (x : Option ℚ) : jsOr0 x = x.getD 0 := by
  cases x with
  | none => rfl
  | some v =>
    by_cases h : v = 0 <;> simp [jsOr0, h]

/-- C8: the dashboard reduce-based investment totals agree with the
executive summary sum-based totals for every recruitment list, and on the
spec example [{10,20},{5,8}] both give the range 15 to 28. -/
theorem total_investment_sums :
    (∀ recs : List RecNeed,
      dashTotalLow recs = execTotalLow recs ∧
      dashTotalHigh recs = execTotalHigh recs) ∧
    execTotalLow exampleRecs = 15 ∧ execTotalHigh exampleRecs = 28 ∧
    dashTotalLow exampleRecs = 15 ∧ dashTotalHigh exampleRecs = 28 := by
  have hq : ∀ q : ℚ, jsOr0 (some q) = q := fun q => jsOr0_eq_getD (some q)
  refine ⟨fun recs => ⟨?_, ?_⟩,
    by norm_num [execTotalLow, exampleRecs],
    by norm_num [execTotalHigh, exampleRecs],
    by norm_num [dashTotalLow, exampleRecs, hq],
    by norm_num [dashTotalHigh, exampleRecs, hq]⟩
  · simp only [dashTotalLow, execTotalLow, jsOr0_eq_getD]
    rw [foldl_add_map]
    exact zero_add _
  · simp only [dashTotalHigh, execTotalHigh, jsOr0_eq_getD]
    rw [foldl_add_map]
    exact zero_add _

/-- C9: with zero DNA dimensions both radar implementations complete
without failure and produce no vertices (an empty frame: the static chart
draws an empty polygon, the dashboard draws only the grid). -/
theorem radar_empty_frame (r : Results) (h : r.dnaDimensions?.getD [] = []) :
    plotDnaRadar r = .ok ⟨[], []⟩ ∧ dashRadarVertices [] = [] := by
  refine ⟨?_, rfl⟩
  simp only [plotDnaRadar, h]
  rfl

/-- Witness for C9's theorem on a document without dna_dimensions. -/
theorem radar_empty_frame_w :
    plotDnaRadar emptyResults = .ok ⟨[], []⟩ ∧ dashRadarVertices [] = [] :=
  radar_empty_frame emptyResults rfl

/-- C10 (counterexample): loading a results document that is an empty JSON
object succeeds, so results are loaded (self.results is set), yet
generate_dashboard raises ValueError and writes nothing, because
`if not self.results` tests dict truthiness, not presence. -/
theorem generate_dashboard_empty_doc_cx :
    loadResults ⟨true, emptyResults, false, []⟩ initState =
      .ok (⟨some emptyResults, none⟩, []) ∧
    (⟨some emptyResults, none⟩ : VizState).results.isSome = true ∧
    generateDashboard ⟨some emptyResults, none⟩ "AEGIS_Dashboard.html" =
      .error (.valueError "No results loaded. Call load_results() first.") :=
  ⟨rfl, rfl, rfl⟩

/-- C10 (amended): generate_dashboard raises ValueError (writing nothing)
exactly when self.results is falsy (unset, or a loaded empty document);
whenever self.results is truthy it writes the dashboard document and
returns the output path. -/
theorem generate_dashboard_precondition (st : VizState) (fn : String) :
    (pyTruthyR st.results = false →
      generateDashboard st fn =
        .error (.valueError "No results loaded. Call load_results() first.")) ∧
    (pyTruthyR st.results = true →
      ∃ doc, generateDashboard st fn = .ok (fn, doc)) := by
  constructor
  · intro h
    simp [generateDashboard, h]
  · intro h
    simp only [generateDashboard, h, if_true]
    exact ⟨_, rfl⟩

/-- Witness for C10's theorem at an unloaded and at a loaded state. -/
theorem generate_dashboard_precondition_w :
    generateDashboard initState "AEGIS_Dashboard.html" =
      .error (.valueError "No results loaded. Call load_results() first.") ∧
    ∃ doc, generateDashboard ⟨some sampleResults, none⟩ "AEGIS_Dashboard.html" =
      .ok ("AEGIS_Dashboard.html", doc) :=
  ⟨(generate_dashboard_precondition initState _).1 rfl,
   (generate_dashboard_precondition ⟨some sampleResults, none⟩ _).2 rfl⟩

/-- Distributing division and scaling over a list sum. -/
theorem sum_map_div_mul (l : List ℚ) (t : ℚ) :
    (l.map fun x => x / t * 100).sum = l.sum / t * 100 := by
  induction l with
  | nil => simp
  | cons a as ih =>
    simp only [List.map_cons, List.sum_cons, ih]
    ring

/-- C5: the classification pie emits a wedge exactly for the labels whose
count is strictly positive, and when any wedge is emitted the autopct
percentages over the included wedges sum to exactly 100. -/
theorem classification_pie_spec (s : SquadSummary) :
    (∀ l ∈ pieLabels,
      ((l ∈ (pieData s).map fun t => t.1) ↔ 0 < labelCount s l)) ∧
    (pieData s ≠ [] → (pieWedgePcts s).sum = 100) := by
  constructor
  · intro l hl
    fin_cases hl <;>
      simp [pieData, pieLabels, pieSizes, pieColors, labelCount,
        List.mem_filter, dictGet, COLORS]
  · intro hne
    have hmapne : ((pieData s).map fun t => t.2.1) ≠ [] := by
      simpa [List.map_eq_nil_iff] using hne
    have hpos : ∀ x ∈ (pieData s).map fun t => t.2.1, 0 < x := by
      intro x hx
      obtain ⟨t, ht, rfl⟩ := List.mem_map.mp hx
      have h2 := List.of_mem_filter ht
      simpa using h2
    have htot : 0 < pieTotal s := by
      have h3 := List.sum_pos _ hpos hmapne
      simpa [pieTotal] using h3
    have hrw : pieWedgePcts s =
        ((pieData s).map fun t => t.2.1).map fun x => x / pieTotal s * 100 := by
      simp [pieWedgePcts, List.map_map]
    rw [hrw, sum_map_div_mul]
    rw [show ((pieData s).map fun t => t.2.1).sum = pieTotal s from rfl]
    rw [div_self (ne_of_gt htot)]
    norm_num

/-- Witness for C5's theorem on a summary with all four counts positive. -/
theorem classification_pie_spec_w :
    ("Key Enabler" ∈ (pieData sampleSummary).map fun t => t.1) ∧
    (pieWedgePcts sampleSummary).sum = 100 :=
  ⟨((classification_pie_spec sampleSummary).1 "Key Enabler" (by decide)).mpr
      (by decide),
   (classification_pie_spec sampleSummary).2 (by decide)⟩

/-- plot_ideal_xi draws exactly the known-position assignments, provided
each of their names has a whitespace token. -/
theorem drawXi_ok (xi : List PosAssign)
    (h : ∀ p ∈ xi, (posLookup positionsStatic (p.position?.getD "")).isSome →
         (lastToken? (p.name?.getD "")).isSome) :
    drawXi xi = .ok ((xi.filter fun p =>
      (posLookup positionsStatic (p.position?.getD "")).isSome).map staticMark) := by
  induction xi with
  | nil => rfl
  | cons p rest ih =>
    have hrest := fun q hq => h q (List.mem_cons_of_mem _ hq)
    rcases hxy : posLookup positionsStatic (p.position?.getD "") with _ | xy
    · simp only [drawXi, hxy, List.filter_cons, Option.isSome_none,
        Bool.false_eq_true, if_false]
      exact ih hrest
    · have hps : (posLookup positionsStatic (p.position?.getD "")).isSome := by
        simp [hxy]
      obtain ⟨nm, hnm⟩ := Option.isSome_iff_exists.mp
        (h p (List.mem_cons_self p rest) hps)
      simp only [drawXi, hxy, hnm]
      rw [ih hrest]
      simp [List.filter_cons, hps, staticMark, hxy, hnm]

/-- IdealXIPitch renders exactly the known-position assignments. -/
theorem dashXi_eq (xi : List PosAssign) :
    dashXiMarkers xi = (xi.filter fun p =>
      (posLookup positionsDash (p.position?.getD "")).isSome).map dashMark := by
  induction xi with
  | nil => rfl
  | cons p rest ih =>
    simp only [dashXiMarkers] at ih ⊢
    rcases hxy : posLookup positionsDash (p.position?.getD "") with _ | xy <;>
      simp [List.filterMap_cons, hxy, List.filter_cons, ih]

/-- Removing an unknown-position assignment anywhere leaves the static
pitch rendering unchanged. -/
theorem drawXi_skip (q : PosAssign)
    (hq : posLookup positionsStatic (q.position?.getD "") = none) :
    ∀ l1 l2 : List PosAssign, drawXi (l1 ++ q :: l2) = drawXi (l1 ++ l2) := by
  intro l1
  induction l1 with
  | nil =>
    intro l2
    simp only [List.nil_append, drawXi, hq]
  | cons a l1 ih =>
    intro l2
    simp only [List.cons_append, drawXi, List.append_eq]
    rw [ih l2]

/-- C7 (amended): both pitch renderings silently omit assignments whose
position key is outside the fixed 11-slot table, the omission never
affects the remaining assignments, and every known-position assignment is
drawn at its mapped coordinate - for the static routine provided its name
has at least one whitespace token (otherwise it raises IndexError; the
dashboard instead renders the marker with surname 'Unknown'). -/
theorem ideal_xi_skip_amended (xi : List PosAssign)
    (h : ∀ p ∈ xi, (posLookup positionsStatic (p.position?.getD "")).isSome →
         (lastToken? (p.name?.getD "")).isSome) :
    drawXi xi = .ok ((xi.filter fun p =>
      (posLookup positionsStatic (p.position?.getD "")).isSome).map staticMark) ∧
    dashXiMarkers xi = (xi.filter fun p =>
      (posLookup positionsDash (p.position?.getD "")).isSome).map dashMark ∧
    ∀ (q : PosAssign) (l1 l2 : List PosAssign),
      posLookup positionsStatic (q.position?.getD "") = none →
      drawXi (l1 ++ q :: l2) = drawXi (l1 ++ l2) :=
  ⟨drawXi_ok xi h, dashXi_eq xi, fun q l1 l2 hq => drawXi_skip q hq l1 l2⟩

/-- Witness for C7's theorem on a mixed known/unknown assignment list. -/
theorem ideal_xi_skip_amended_w :
    drawXi xiMixed = .ok ((xiMixed.filter fun p =>
      (posLookup positionsStatic (p.position?.getD "")).isSome).map staticMark) :=
  (ideal_xi_skip_amended xiMixed (by decide)).1

/-- C7 (counterexample): a known-position assignment whose name is the
empty string makes plot_ideal_xi raise IndexError, so that assignment is
not drawn (and no chart is produced) even though its slot key GK is in
the table. -/
theorem ideal_xi_empty_name_cx :
    drawXi badXi = .error .indexError ∧
    (posLookup positionsStatic "GK").isSome = true :=
  ⟨rfl, rfl⟩

/-- rowLe is transitive. -/
theorem rowLe_trans : ∀ a b c : CsvRow, rowLe a b → rowLe b c → rowLe a c := by
  intro a b c hab hbc
  simp only [rowLe, decide_eq_true_eq] at *
  exact le_trans hbc hab

/-- rowLe is total. -/
theorem rowLe_total : ∀ a b : CsvRow, rowLe a b || rowLe b a := by
  intro a b
  simp only [rowLe, Bool.or_eq_true, decide_eq_true_eq]
  exact le_total _ _

/-- dashLe is transitive. -/
theorem dashLe_trans : ∀ a b c : DashPlayer, dashLe a b → dashLe b c → dashLe a c := by
  intro a b c hab hbc
  simp only [dashLe, decide_eq_true_eq] at *
  exact le_trans hbc hab

/-- dashLe is total. -/
theorem dashLe_total : ∀ a b : DashPlayer, dashLe a b || dashLe b a := by
  intro a b
  simp only [dashLe, Bool.or_eq_true, decide_eq_true_eq]
  exact le_total _ _

/-- C4: both squad-fit rankings (static plot_squad_fit and the dashboard
SquadFitChart) are descending stable sorts by fit score: the output is a
permutation of the rows, pairwise descending in score, and any two rows
with equal scores appear in the chart in their source-table order. -/
theorem squad_fit_sort_stable (ps : List CsvRow) (qs : List DashPlayer) :
    (sortRowsDesc ps).Pairwise (fun a b => rowKey b ≤ rowKey a) ∧
    List.Perm (sortRowsDesc ps) ps ∧
    (∀ a b : CsvRow, rowKey a = rowKey b →
      List.Sublist [a, b] ps → List.Sublist [a, b] (sortRowsDesc ps)) ∧
    (dashSortDesc qs).Pairwise (fun a b => b.score ≤ a.score) ∧
    List.Perm (dashSortDesc qs) qs ∧
    (∀ a b : DashPlayer, a.score = b.score →
      List.Sublist [a, b] qs → List.Sublist [a, b] (dashSortDesc qs)) := by
  refine ⟨?_, List.mergeSort_perm _ _, ?_, ?_, List.mergeSort_perm _ _, ?_⟩
  · exact (List.sorted_mergeSort rowLe_trans rowLe_total ps).imp
      fun hab => by simpa [rowLe] using hab
  · intro a b hk hsub
    exact List.pair_sublist_mergeSort rowLe_trans rowLe_total
      (by simp [rowLe, hk]) hsub
  · exact (List.sorted_mergeSort dashLe_trans dashLe_total qs).imp
      fun hab => by simpa [dashLe] using hab
  · intro a b hk hsub
    exact List.pair_sublist_mergeSort dashLe_trans dashLe_total
      (by simp [dashLe, hk]) hsub

/-- Witness for C4's theorem: two equal-score rows keep their input order. -/
theorem squad_fit_sort_stable_w :
    List.Sublist [rowA, rowB] (sortRowsDesc [rowA, rowB]) ∧
    List.Sublist [playerA, playerB] (dashSortDesc [playerA, playerB]) :=
  ⟨(squad_fit_sort_stable [rowA, rowB] []).2.2.1 rowA rowB rfl
      (List.Sublist.refl _),
   (squad_fit_sort_stable [] [playerA, playerB]).2.2.2.2.2 playerA playerB rfl
      (List.Sublist.refl _)⟩

/-- Characterization of a failing batch: the escaped exception comes from
a routine at some index k, and exactly the routines up to and including k
were attempted. -/
theorem runCharts_err_spec (l : List (ChartId × Except PyError ChartStatus))
    (e : PyError) :
    (runCharts l).2 = some e →
    ∃ k, ∃ hk : k < l.length,
      (l.get ⟨k, hk⟩).2 = .error e ∧
      (runCharts l).1 = (l.map fun t => t.1).take (k + 1) := by
  induction l with
  | nil =>
    intro h
    simp [runCharts] at h
  | cons x rest ih =>
    obtain ⟨c, res⟩ := x
    cases res with
    | error e2 =>
      intro h
      simp only [runCharts, Option.some.injEq] at h
      refine ⟨0, Nat.succ_pos _, ?_, ?_⟩
      · simp [h]
      · simp [runCharts]
    | ok s =>
      intro h
      simp only [runCharts] at h ⊢
      obtain ⟨k, hk, h1, h2⟩ := ih h
      refine ⟨k + 1, Nat.succ_lt_succ hk, h1, ?_⟩
      simp only [List.map_cons, List.take_succ_cons, h2]

/-- In a duplicate-free list, the element at index j does not occur among
the first n elements when n is at most j. -/
theorem get_not_mem_take {α : Type} (l : List α) (hnd : l.Nodup) (j n : ℕ)
    (hj : j < l.length) (hn : n ≤ j) : l.get ⟨j, hj⟩ ∉ l.take n := by
  intro hmem
  rw [List.mem_take_iff_getElem] at hmem
  obtain ⟨i, him, hi⟩ := hmem
  have hin : i < n := lt_of_lt_of_le him inf_le_left
  have hij : i = j := hnd.getElem_inj_iff.mp (by simpa [List.get_eq_getElem] using hi)
  omega

/-- C2 (amended): plot_all runs the seven routines in a fixed order with
no per-routine exception handling; when a routine raises, the batch stops
there - every routine listed after the failing one is not attempted.
(Empty-data conditions are handled inside individual routines by early
return and do not raise.) -/
theorem plot_all_halts_on_error (r : Results) (fs : FS) (e : PyError)
    (he : (plotAll r fs).2 = some e) :
    ∃ k, ∃ hk : k < 7,
      ((chartRoutines r fs).get ⟨k, hk⟩).2 = .error e ∧
      (plotAll r fs).1 = chartOrder.take (k + 1) ∧
      ∀ j, ∀ hj : j < 7, k < j →
        chartOrder.get ⟨j, hj⟩ ∉ (plotAll r fs).1 := by
  obtain ⟨k, hk, h1, h2⟩ := runCharts_err_spec (chartRoutines r fs) e he
  have hmap : ((chartRoutines r fs).map fun t => t.1) = chartOrder := rfl
  rw [hmap] at h2
  have hk7 : k < 7 := hk
  refine ⟨k, hk7, h1, h2, ?_⟩
  intro j hj hkj hmem
  rw [show (plotAll r fs).1 = (runCharts (chartRoutines r fs)).1 from rfl, h2] at hmem
  exact get_not_mem_take chartOrder (by decide) j (k + 1) hj (by omega) hmem

/-- plot_squad_fit raises KeyError("Fit Score") on a CSV whose single row
lacks that column. -/
theorem plotSquadFitC_fsNoScore :
    plotSquadFitC fsNoScore = .error (.keyError "Fit Score") := by
  simp [plotSquadFitC, fsNoScore, sortRowsDesc, List.mergeSort_singleton,
    pyComp, keyGet, rowNoScore]

/-- Full evaluation of plot_all on the failing fixture. -/
theorem plotAll_fsNoScore :
    plotAll sampleResults fsNoScore =
      ([.dnaRadar, .formationUsage, .squadFit], some (.keyError "Fit Score")) := by
  simp [plotAll, chartRoutines, runCharts, plotSquadFitC_fsNoScore,
    plotDnaRadarC, plotDnaRadar, plotFormationUsageC]

/-- C2 (counterexample): after a successful load, a KeyError raised inside
plot_squad_fit ends the batch: the pie, ideal-XI, recruitment and
executive-summary routines are never attempted. -/
theorem plot_all_aborts_at_squad_fit :
    (plotAll sampleResults fsNoScore).1 =
      [.dnaRadar, .formationUsage, .squadFit] ∧
    (plotAll sampleResults fsNoScore).2 = some (.keyError "Fit Score") ∧
    ChartId.classificationPie ∉ (plotAll sampleResults fsNoScore).1 ∧
    ChartId.executiveSummary ∉ (plotAll sampleResults fsNoScore).1 := by
  rw [plotAll_fsNoScore]
  refine ⟨rfl, rfl, by decide, by decide⟩

/-- Witness for C2's theorem on the failing fixture. -/
theorem plot_all_halts_on_error_w :
    ∃ k, ∃ hk : k < 7,
      ((chartRoutines sampleResults fsNoScore).get ⟨k, hk⟩).2 =
        .error (.keyError "Fit Score") ∧
      (plotAll sampleResults fsNoScore).1 = chartOrder.take (k + 1) ∧
      ∀ j, ∀ hj : j < 7, k < j →
        chartOrder.get ⟨j, hj⟩ ∉ (plotAll sampleResults fsNoScore).1 :=
  plot_all_halts_on_error sampleResults fsNoScore (.keyError "Fit Score")
    (by rw [plotAll_fsNoScore])

end Aegis
